import Mathlib

/-!
Shallow embedding of the thread-segmentation and per-thread analysis
pipeline of `streamlit_app.py` (Multi-Thread FMEA Analyzer).

External network clients (openai.ChatCompletion.create,
anthropic_client.completions.create, replicate.run) are modelled as
oracle functions collected in a `Provider` structure; a Python
exception raised by a client is an `Except.error` carrying the
exception message.  Streamlit UI effects that the pipeline logic
depends on (st.warning on truncation, st.error on a failed
segmentation call) are recorded in the returned records.  Python's
`None` is `Option.none`.
-/

/-- Sampling parameters are passed through to the oracles unchanged;
their numeric type only needs decidable equality, `Rat` stands in for
Python floats (no arithmetic is ever performed on them). -/
abbrev Param := Rat

/-- Input dictionary of `replicate.run` (lines 94-98 / 158-162). -/
structure LLaMAInput where
  prompt : String
  temperature : Param
  topP : Param
  maxLength : Nat
  repetitionPenalty : Param
deriving DecidableEq, Repr

/-- The three external text-generation clients, as oracles.
`openaiChat msgs maxTok t tp fp pp` models
`openai.ChatCompletion.create(model="gpt-3.5-turbo", messages=msgs, max_tokens=maxTok, ...)`
returning `response.choices[0].message.content`;
`anthropicComplete prompt modelName maxTokSample t tp` models
`anthropic_client.completions.create(...)` returning `response.completion`;
`replicateRun modelId input` models `replicate.run(modelId, input=...)`
returning the iterable of output chunks.  An `Except.error` is a raised
Python exception (its message). -/
structure Provider where
  openaiChat : List (String × String) → Nat → Param → Param → Param → Param → Except String String
  anthropicComplete : String → String → Nat → Param → Param → Except String String
  replicateRun : String → LLaMAInput → Except String (List String)

/-- Python `str.split(sep)` for a one-character separator, on the
character list: splits at every occurrence, keeping empty pieces,
so the result always has (number of separators + 1) elements. -/
def splitOnChar (c : Char) : List Char → List (List Char)
  | [] => [[]]
  | x :: xs =>
    match splitOnChar c xs with
    | [] => [[]]
    | h :: t => if x = c then [] :: h :: t else (x :: h) :: t

/-- Python `text.split("\n")` (lines 81, 90, 100). -/
def pySplitLines (s : String) : List String :=
  (splitOnChar (Char.ofNat 10) s.data).map String.mk

/-- Lines 51-53 of `separate_threads`: the hard prefix cut
`content[:limit]` applied only when `len(content) > limit`, paired
with whether the truncation warning `st.warning(...)` was emitted. -/
def truncateContent (content : String) (limit : Nat) : String × Bool :=
  if content.length > limit then (String.mk (content.data.take limit), true)
  else (content, false)

/-- `max_tokens = 4000` (line 50); the truncation limit is `max_tokens * 4`. -/
def max_tokens : Nat := 4000

/-- The segmentation prompt template (lines 55-65) with `user_input`
and `content` interpolated. -/
def separation_prompt (user_input content : String) : String :=
  "\n    The following content may contain multiple email threads related to machinery defects, incidents, or troubles. \n    Please separate these threads if required and return them as a numbered list. Each item in the list should be a complete thread.\n    Use your intelligence to identify where one thread ends and another begins.\n\n    Additional instructions from the user:\n    "
  ++ user_input
  ++ "\n\n    Content to separate:\n    "
  ++ content
  ++ "\n    "

/-- The analysis prompt template (lines 106-130) with `user_input`
and `thread` interpolated. -/
def analysis_prompt (user_input thread : String) : String :=
  "\n    You are an experienced reliability engineer. Analyze the following email thread related to machinery defects, incidents, or troubles, and format the data under these headings:\n    - Failure Mode\n    - Failure Symptom\n    - Failure Effect\n    - Failure Cause\n\n    Use these FMEA (Failure Mode and Effects Analysis) definitions:\n\n    Failure Mode: A specific combination of a component and a verb that describes how the component fails to perform its intended function. It is the precise way in which an item or system\x27s ability to perform its required function is lost or degraded. (Example: \"Piston ring fractures\")\n\n    Failure Symptom: An observable indicator that a failure mode is occurring or has occurred. (Example: \"Increased vibration\" or \"Oil leakage\")\n\n    Failure Effect: The resulting impact or consequence of a failure mode on the system\x27s performance or operation. (Example: \"Reduced engine power\" or \"Loss of hydraulic pressure\")\n\n    Failure Cause: The underlying reason or mechanism that leads to the occurrence of a failure mode. (Example: \"Wear and tear\" or \"Contaminated fuel\")\n\n    Create a sort of detailed incident case study out of each thread. Also include timeline of events if it is available in mail threads. Extract as much meaningful data as possible from the email threads and put it in the case study.\n\n    Additional instructions from the user:\n    "
  ++ user_input
  ++ "\n\n    Email thread to analyze:\n    "
  ++ thread
  ++ "\n    "

/-- `anthropic.HUMAN_PROMPT`. -/
def HUMAN_PROMPT : String := "\n\nHuman:"

/-- `anthropic.AI_PROMPT`. -/
def AI_PROMPT : String := "\n\nAssistant:"

/-- The chat message list built for the OpenAI branch (lines 71-74 and 135-138). -/
def chat_messages (prompt : String) : List (String × String) :=
  [("system", "You are a helpful assistant."), ("user", prompt)]

/-- The completion prompt built for the Claude branch (lines 84 and 148). -/
def claude_wrapped (prompt : String) : String :=
  HUMAN_PROMPT ++ " " ++ prompt ++ AI_PROMPT

/-- The replicate model identifier (lines 93 and 157). -/
def llama_model_id : String :=
  "meta/llama-2-70b-chat:02e509c789964a7ea8736978a43525956ef40397be9033abf9fd2badfe68c9e3"

/-- Result record of `separate_threads`: `threads = none` models the
Python function returning `None` (no branch of the if/elif taken);
`warned` records whether the truncation `st.warning` fired; `errorMsg`
records the `st.error(f"Error in API request: ...")` banner of the
`except` handler. -/
structure SepResult where
  threads : Option (List String)
  warned : Bool
  errorMsg : Option String
deriving DecidableEq, Repr

/-- Shared tail of the three provider branches of `separate_threads`:
on success the returned text is split on line boundaries (lines 81, 90,
100); on a raised exception the `except` handler (lines 101-103) shows
the error banner and returns the empty list. -/
def sepPost (warned : Bool) : Except String String → SepResult
  | Except.ok text => ⟨some (pySplitLines text), warned, none⟩
  | Except.error e => ⟨some [], warned, some ("Error in API request: " ++ e)⟩

/-- The truncated content fed into the segmentation prompt (lines 50-52). -/
def truncated (content : String) : String :=
  (truncateContent content (max_tokens * 4)).1

/-- Whether the truncation warning fired (line 53). -/
def truncWarned (content : String) : Bool :=
  (truncateContent content (max_tokens * 4)).2

/-- `separate_threads(content, model, user_input, temperature, top_p,
frequency_penalty, presence_penalty)` (lines 49-103). -/
def separate_threads (p : Provider) (content model user_input : String)
    (temperature top_p frequency_penalty presence_penalty : Param) : SepResult :=
  if model = "OpenAI" then
    sepPost (truncWarned content)
      (p.openaiChat (chat_messages (separation_prompt user_input (truncated content))) 1500
        temperature top_p frequency_penalty presence_penalty)
  else if model = "Claude" then
    sepPost (truncWarned content)
      (p.anthropicComplete (claude_wrapped (separation_prompt user_input (truncated content)))
        "claude-2" 1500 temperature top_p)
  else if model = "LLaMA" then
    sepPost (truncWarned content)
      ((p.replicateRun llama_model_id
          ⟨separation_prompt user_input (truncated content), temperature, top_p, 1500, 1⟩).map
        String.join)
  else ⟨none, truncWarned content, none⟩

/-- `analyze_thread(thread, model, user_input, ...)` (lines 105-164).
There is no try/except here: a raised client exception propagates to
the caller (`Except.error`); an unknown model falls off the if/elif
chain and returns Python `None` (`Except.ok none`). -/
def analyze_thread (p : Provider) (thread model user_input : String)
    (temperature top_p frequency_penalty presence_penalty : Param) :
    Except String (Option String) :=
  if model = "OpenAI" then
    (p.openaiChat (chat_messages (analysis_prompt user_input thread)) 1000
        temperature top_p frequency_penalty presence_penalty).map some
  else if model = "Claude" then
    (p.anthropicComplete (claude_wrapped (analysis_prompt user_input thread))
        "claude-2" 1000 temperature top_p).map some
  else if model = "LLaMA" then
    ((p.replicateRun llama_model_id
        ⟨analysis_prompt user_input thread, temperature, top_p, 1000, 1⟩).map
      String.join).map some
  else Except.ok none

/-- Python `enumerate(threads, 1)` (line 202): pair each element with
its 1-based index. -/
def enumerateFrom (i : Nat) : List String → List (Nat × String)
  | [] => []
  | t :: ts => (i, t) :: enumerateFrom (i + 1) ts

/-- The analysis loop of `main` (lines 202-211), starting at index `i`.
Each iteration calls `analyze_thread`; since that call is not guarded
by try/except, a raised exception aborts the loop: the entries produced
before the failure are kept and the exception is returned alongside.
Returns (list of (1-based index, analysis value), uncaught exception). -/
def runAnalyses (p : Provider) (model user_input : String)
    (temperature top_p frequency_penalty presence_penalty : Param) :
    List String → Nat → List (Nat × Option String) × Option String
  | [], _ => ([], none)
  | th :: rest, i =>
    match analyze_thread p th model user_input
        temperature top_p frequency_penalty presence_penalty with
    | Except.error e => ([], some e)
    | Except.ok a =>
      ((i, a) :: (runAnalyses p model user_input
          temperature top_p frequency_penalty presence_penalty rest (i + 1)).1,
        (runAnalyses p model user_input
          temperature top_p frequency_penalty presence_penalty rest (i + 1)).2)

/-- Outcome of one run of the analyze-button handler in `main`
(lines 196-211): the thread list returned by segmentation, the
truncation-warning flag, the run-level `st.error` banner from
segmentation, the per-thread analysis entries actually produced, and
the uncaught Python exception (if any) that aborted the run. -/
structure RunResult where
  threads : Option (List String)
  warned : Bool
  segError : Option String
  analyses : List (Nat × Option String)
  runException : Option String
deriving DecidableEq, Repr

/-- The run logic of `main` behind the Analyze button (lines 196-211):
segment, report `len(threads)`, then analyze each thread in order with
1-based indices.  When `separate_threads` returned Python `None`
(unknown model), `len(threads)` at line 200 raises a `TypeError` before
any analysis happens. -/
def mainRun (p : Provider) (content model user_input : String)
    (temperature top_p frequency_penalty presence_penalty : Param) : RunResult :=
  match (separate_threads p content model user_input
      temperature top_p frequency_penalty presence_penalty).threads with
  | none =>
    ⟨none,
      (separate_threads p content model user_input
        temperature top_p frequency_penalty presence_penalty).warned,
      (separate_threads p content model user_input
        temperature top_p frequency_penalty presence_penalty).errorMsg,
      [], some "TypeError: object of type NoneType has no len"⟩
  | some ths =>
    ⟨some ths,
      (separate_threads p content model user_input
        temperature top_p frequency_penalty presence_penalty).warned,
      (separate_threads p content model user_input
        temperature top_p frequency_penalty presence_penalty).errorMsg,
      (runAnalyses p model user_input
        temperature top_p frequency_penalty presence_penalty ths 1).1,
      (runAnalyses p model user_input
        temperature top_p frequency_penalty presence_penalty ths 1).2⟩

/-! ## Concrete backends used to exercise the pipeline -/

/-- A backend whose every call succeeds: segmentation calls (max
tokens 1500 at the call sites) return `segText`, analysis calls (max
tokens 1000) return `anaText`. -/
def okProvider (segText anaText : String) : Provider :=
  { openaiChat := fun _ maxTok _ _ _ _ =>
      Except.ok (if maxTok = 1500 then segText else anaText),
    anthropicComplete := fun _ _ maxTok _ _ =>
      Except.ok (if maxTok = 1500 then segText else anaText),
    replicateRun := fun _ inp =>
      Except.ok [if inp.maxLength = 1500 then segText else anaText] }

/-- A backend whose every call raises `msg`. -/
def errProvider (msg : String) : Provider :=
  { openaiChat := fun _ _ _ _ _ _ => Except.error msg,
    anthropicComplete := fun _ _ _ _ _ => Except.error msg,
    replicateRun := fun _ _ => Except.error msg }

/-- Chat oracle that segments any document into the two threads
"t1" and "t2" (segmentation calls use max tokens 1500), raises "boom"
on the analysis call for thread "t1" (run with extra instructions "u"),
and succeeds on every other analysis call. -/
def failFirstChat (msgs : List (String × String)) (maxTok : Nat)
    (_t _tp _fp _pp : Param) : Except String String :=
  if maxTok = 1500 then Except.ok "t1\nt2"
  else if msgs = chat_messages (analysis_prompt "u" "t1") then Except.error "boom"
  else Except.ok "ANALYSIS"

/-- A backend built from `failFirstChat`: exactly one analysis call
(the one for thread "t1") faults. -/
def failFirstProvider : Provider :=
  { openaiChat := failFirstChat,
    anthropicComplete := fun _ _ _ _ _ => Except.error "unused",
    replicateRun := fun _ _ => Except.error "unused" }

/-! ## Helper lemmas about line splitting -/

theorem splitOnChar_ne_nil (c : Char) (l : List Char) : splitOnChar c l ≠ [] := by
  induction l with
  | nil => simp [splitOnChar]
  | cons x xs ih =>
    rw [splitOnChar]
    cases h : splitOnChar c xs with
    | nil => exact absurd h ih
    | cons a b => by_cases hx : x = c <;> simp [hx]

theorem splitOnChar_of_not_mem (c : Char) (l : List Char) (h : c ∉ l) :
    splitOnChar c l = [l] := by
  induction l with
  | nil => rfl
  | cons x xs ih =>
    rw [splitOnChar, ih (fun hm => h (List.mem_cons_of_mem _ hm))]
    have hx : ¬ x = c := fun hx => h (hx ▸ List.mem_cons_self _ _)
    simp [hx]

theorem splitOnChar_sep (c : Char) (xs ys : List Char) (h : c ∉ xs) :
    splitOnChar c (xs ++ c :: ys) = xs :: splitOnChar c ys := by
  induction xs with
  | nil =>
    rw [List.nil_append, splitOnChar]
    cases hy : splitOnChar c ys with
    | nil => exact absurd hy (splitOnChar_ne_nil c ys)
    | cons a b => simp
  | cons x xs ih =>
    rw [List.cons_append, splitOnChar,
      ih (fun hm => h (List.mem_cons_of_mem _ hm))]
    have hx : ¬ x = c := fun hx => h (hx ▸ List.mem_cons_self _ _)
    simp [hx]

theorem pySplitLines_ne_nil (s : String) : pySplitLines s ≠ [] := by
  unfold pySplitLines
  simpa using splitOnChar_ne_nil (Char.ofNat 10) s.data

/-! ## Branch equations for the provider dispatch and the run -/

theorem separate_threads_openai (p : Provider) (content u : String) (t tp fp pp : Param) :
    separate_threads p content "OpenAI" u t tp fp pp =
      sepPost (truncWarned content)
        (p.openaiChat (chat_messages (separation_prompt u (truncated content)))
          1500 t tp fp pp) := by
  unfold separate_threads
  rw [if_pos rfl]

theorem separate_threads_claude (p : Provider) (content u : String) (t tp fp pp : Param) :
    separate_threads p content "Claude" u t tp fp pp =
      sepPost (truncWarned content)
        (p.anthropicComplete (claude_wrapped (separation_prompt u (truncated content)))
          "claude-2" 1500 t tp) := by
  unfold separate_threads
  rw [if_neg (by decide : ¬ ("Claude" : String) = "OpenAI"), if_pos rfl]

theorem separate_threads_llama (p : Provider) (content u : String) (t tp fp pp : Param) :
    separate_threads p content "LLaMA" u t tp fp pp =
      sepPost (truncWarned content)
        ((p.replicateRun llama_model_id
            ⟨separation_prompt u (truncated content), t, tp, 1500, 1⟩).map String.join) := by
  unfold separate_threads
  rw [if_neg (by decide : ¬ ("LLaMA" : String) = "OpenAI"),
    if_neg (by decide : ¬ ("LLaMA" : String) = "Claude"), if_pos rfl]

theorem separate_threads_unknown (p : Provider) (content model u : String)
    (t tp fp pp : Param)
    (h1 : model ≠ "OpenAI") (h2 : model ≠ "Claude") (h3 : model ≠ "LLaMA") :
    separate_threads p content model u t tp fp pp = ⟨none, truncWarned content, none⟩ := by
  unfold separate_threads
  rw [if_neg h1, if_neg h2, if_neg h3]

theorem analyze_thread_openai (p : Provider) (th u : String) (t tp fp pp : Param) :
    analyze_thread p th "OpenAI" u t tp fp pp =
      (p.openaiChat (chat_messages (analysis_prompt u th)) 1000 t tp fp pp).map some := by
  unfold analyze_thread
  rw [if_pos rfl]

theorem analyze_thread_claude (p : Provider) (th u : String) (t tp fp pp : Param) :
    analyze_thread p th "Claude" u t tp fp pp =
      (p.anthropicComplete (claude_wrapped (analysis_prompt u th))
        "claude-2" 1000 t tp).map some := by
  unfold analyze_thread
  rw [if_neg (by decide : ¬ ("Claude" : String) = "OpenAI"), if_pos rfl]

theorem analyze_thread_llama (p : Provider) (th u : String) (t tp fp pp : Param) :
    analyze_thread p th "LLaMA" u t tp fp pp =
      ((p.replicateRun llama_model_id
          ⟨analysis_prompt u th, t, tp, 1000, 1⟩).map String.join).map some := by
  unfold analyze_thread
  rw [if_neg (by decide : ¬ ("LLaMA" : String) = "OpenAI"),
    if_neg (by decide : ¬ ("LLaMA" : String) = "Claude"), if_pos rfl]

theorem analyze_thread_unknown (p : Provider) (th model u : String)
    (t tp fp pp : Param)
    (h1 : model ≠ "OpenAI") (h2 : model ≠ "Claude") (h3 : model ≠ "LLaMA") :
    analyze_thread p th model u t tp fp pp = Except.ok none := by
  unfold analyze_thread
  rw [if_neg h1, if_neg h2, if_neg h3]

theorem runAnalyses_nil (p : Provider) (m u : String) (t tp fp pp : Param) (i : Nat) :
    runAnalyses p m u t tp fp pp [] i = ([], none) := rfl

theorem runAnalyses_cons_ok (p : Provider) (m u th : String) (rest : List String)
    (t tp fp pp : Param) (i : Nat) (a : Option String)
    (h : analyze_thread p th m u t tp fp pp = Except.ok a) :
    runAnalyses p m u t tp fp pp (th :: rest) i =
      ((i, a) :: (runAnalyses p m u t tp fp pp rest (i + 1)).1,
        (runAnalyses p m u t tp fp pp rest (i + 1)).2) := by
  simp only [runAnalyses, h]

theorem runAnalyses_cons_err (p : Provider) (m u th : String) (rest : List String)
    (t tp fp pp : Param) (i : Nat) (e : String)
    (h : analyze_thread p th m u t tp fp pp = Except.error e) :
    runAnalyses p m u t tp fp pp (th :: rest) i = ([], some e) := by
  simp only [runAnalyses, h]

theorem mainRun_eq_none (p : Provider) (c m u : String) (t tp fp pp : Param)
    (h : (separate_threads p c m u t tp fp pp).threads = none) :
    mainRun p c m u t tp fp pp =
      ⟨none, (separate_threads p c m u t tp fp pp).warned,
        (separate_threads p c m u t tp fp pp).errorMsg, [],
        some "TypeError: object of type NoneType has no len"⟩ := by
  unfold mainRun
  rw [h]

theorem mainRun_eq_some (p : Provider) (c m u : String) (t tp fp pp : Param)
    (ths : List String)
    (h : (separate_threads p c m u t tp fp pp).threads = some ths) :
    mainRun p c m u t tp fp pp =
      ⟨some ths, (separate_threads p c m u t tp fp pp).warned,
        (separate_threads p c m u t tp fp pp).errorMsg,
        (runAnalyses p m u t tp fp pp ths 1).1,
        (runAnalyses p m u t tp fp pp ths 1).2⟩ := by
  unfold mainRun
  rw [h]

/-! ## Prompt-injectivity lemmas -/

theorem analysis_prompt_ne (u t1 t2 : String) (h : t1 ≠ t2) :
    analysis_prompt u t1 ≠ analysis_prompt u t2 := by
  intro he
  apply h
  apply String.ext
  unfold analysis_prompt at he
  have hd := congrArg String.data he
  rw [String.data_append, String.data_append, String.data_append, String.data_append,
    String.data_append, String.data_append, String.data_append, String.data_append,
    List.append_assoc, List.append_assoc, List.append_assoc,
    List.append_assoc, List.append_assoc, List.append_assoc] at hd
  exact List.append_cancel_right
    (List.append_cancel_left (List.append_cancel_left (List.append_cancel_left hd)))

theorem chat_messages_ne (p1 p2 : String) (h : p1 ≠ p2) :
    chat_messages p1 ≠ chat_messages p2 := by
  intro he
  simp only [chat_messages, List.cons.injEq, Prod.mk.injEq] at he
  exact h he.2.1.2

theorem mainRun_threads_eq (p : Provider) (c m u : String) (t tp fp pp : Param) :
    (mainRun p c m u t tp fp pp).threads = (separate_threads p c m u t tp fp pp).threads := by
  cases hsep : (separate_threads p c m u t tp fp pp).threads with
  | none => rw [mainRun_eq_none p c m u t tp fp pp hsep]
  | some ths => rw [mainRun_eq_some p c m u t tp fp pp ths hsep]

theorem mainRun_segError_eq (p : Provider) (c m u : String) (t tp fp pp : Param) :
    (mainRun p c m u t tp fp pp).segError = (separate_threads p c m u t tp fp pp).errorMsg := by
  cases hsep : (separate_threads p c m u t tp fp pp).threads with
  | none => rw [mainRun_eq_none p c m u t tp fp pp hsep]
  | some ths => rw [mainRun_eq_some p c m u t tp fp pp ths hsep]

theorem runAnalyses_all_ok (p : Provider) (m u : String) (t tp fp pp : Param) :
    ∀ (ths : List String) (i : Nat),
    (∀ th ∈ ths, ∃ g, analyze_thread p th m u t tp fp pp = Except.ok (some g)) →
    (runAnalyses p m u t tp fp pp ths i).1.length = ths.length ∧
    (runAnalyses p m u t tp fp pp ths i).2 = none ∧
    ∀ q ∈ (runAnalyses p m u t tp fp pp ths i).1, q.2.isSome = true := by
  intro ths
  induction ths with
  | nil => exact fun i _ => ⟨rfl, rfl, by intro q hq; simp [runAnalyses_nil] at hq⟩
  | cons th rest ih =>
    intro i hall
    obtain ⟨g, hg⟩ := hall th (List.mem_cons_self _ _)
    rw [runAnalyses_cons_ok p m u th rest t tp fp pp i (some g) hg]
    obtain ⟨hlen, hexc, hsome⟩ := ih (i + 1) (fun x hx => hall x (List.mem_cons_of_mem _ hx))
    refine ⟨by simp [hlen], hexc, ?_⟩
    intro q hq
    rcases List.mem_cons.mp hq with h | h
    · rw [h]; rfl
    · exact hsome q h

theorem runAnalyses_abort (p : Provider) (m u : String) (t tp fp pp : Param) :
    ∀ (pre : List String) (i : Nat) (th : String) (post : List String) (e : String),
    (∀ x ∈ pre, ∃ g, analyze_thread p x m u t tp fp pp = Except.ok (some g)) →
    analyze_thread p th m u t tp fp pp = Except.error e →
    (runAnalyses p m u t tp fp pp (pre ++ th :: post) i).1.length = pre.length ∧
    (runAnalyses p m u t tp fp pp (pre ++ th :: post) i).2 = some e := by
  intro pre
  induction pre with
  | nil =>
    intro i th post e _ he
    rw [List.nil_append, runAnalyses_cons_err p m u th post t tp fp pp i e he]
    exact ⟨rfl, rfl⟩
  | cons x pre ih =>
    intro i th post e hall he
    obtain ⟨g, hg⟩ := hall x (List.mem_cons_self _ _)
    rw [List.cons_append, runAnalyses_cons_ok p m u x (pre ++ th :: post) t tp fp pp i (some g) hg]
    obtain ⟨hlen, hexc⟩ := ih (i + 1) th post e (fun y hy => hall y (List.mem_cons_of_mem _ hy)) he
    exact ⟨by simp [hlen], hexc⟩

/-! ## Behaviour of the fail-first backend -/

theorem failFirst_t1 :
    analyze_thread failFirstProvider "t1" "OpenAI" "u" 1 1 0 0 = Except.error "boom" := by
  rw [analyze_thread_openai, show failFirstProvider.openaiChat = failFirstChat from rfl]
  unfold failFirstChat
  rw [if_neg (by decide : ¬ (1000 : Nat) = 1500), if_pos rfl]
  rfl

theorem failFirst_t2 :
    analyze_thread failFirstProvider "t2" "OpenAI" "u" 1 1 0 0 = Except.ok (some "ANALYSIS") := by
  rw [analyze_thread_openai, show failFirstProvider.openaiChat = failFirstChat from rfl]
  unfold failFirstChat
  rw [if_neg (by decide : ¬ (1000 : Nat) = 1500),
    if_neg (chat_messages_ne _ _ (analysis_prompt_ne "u" "t2" "t1" (by decide)))]
  rfl

/-! ## Claims -/

/-- C1, counterexample: a run whose segmentation produced the two
threads "t1" and "t2", where exactly one thread's analysis faults
(thread "t1"; thread "t2"'s analysis call would succeed), returns zero
AnalysisResult entries instead of two: the uncaught exception aborts
the per-thread loop, so the failing thread does prevent the analysis
of the other thread. -/
theorem C1_counterexample :
    (mainRun failFirstProvider "doc" "OpenAI" "u" 1 1 0 0).threads = some ["t1", "t2"] ∧
    analyze_thread failFirstProvider "t1" "OpenAI" "u" 1 1 0 0 = Except.error "boom" ∧
    analyze_thread failFirstProvider "t2" "OpenAI" "u" 1 1 0 0 = Except.ok (some "ANALYSIS") ∧
    (mainRun failFirstProvider "doc" "OpenAI" "u" 1 1 0 0).analyses = [] ∧
    (mainRun failFirstProvider "doc" "OpenAI" "u" 1 1 0 0).runException = some "boom" := by
  have hseg : (separate_threads failFirstProvider "doc" "OpenAI" "u" 1 1 0 0).threads
      = some ["t1", "t2"] := rfl
  have hrun := mainRun_eq_some failFirstProvider "doc" "OpenAI" "u" 1 1 0 0 ["t1", "t2"] hseg
  have hra : runAnalyses failFirstProvider "OpenAI" "u" 1 1 0 0 ["t1", "t2"] 1
      = ([], some "boom") :=
    runAnalyses_cons_err failFirstProvider "OpenAI" "u" "t1" ["t2"] 1 1 0 0 1 "boom" failFirst_t1
  rw [hrun, hra]
  exact ⟨rfl, failFirst_t1, failFirst_t2, rfl, rfl⟩

/-- C1 (amended): for every run whose segmentation produces N threads,
the run returns exactly N AnalysisResult entries (each carrying
generated text) when every thread's analysis succeeds; but a failure of
one thread's analysis raises an uncaught exception that aborts the run:
the threads before the failing one get entries, the failing thread and
all later threads get none, and the exception becomes the run's
outcome. -/
theorem C1_analysis_failure_aborts_run (p : Provider) (content model u : String)
    (t tp fp pp : Param) (ths : List String)
    (hseg : (separate_threads p content model u t tp fp pp).threads = some ths) :
    ((∀ th ∈ ths, ∃ g, analyze_thread p th model u t tp fp pp = Except.ok (some g)) →
      (mainRun p content model u t tp fp pp).analyses.length = ths.length ∧
      (mainRun p content model u t tp fp pp).runException = none ∧
      ∀ q ∈ (mainRun p content model u t tp fp pp).analyses, q.2.isSome = true) ∧
    (∀ (pre : List String) (th : String) (post : List String) (e : String),
      ths = pre ++ th :: post →
      (∀ x ∈ pre, ∃ g, analyze_thread p x model u t tp fp pp = Except.ok (some g)) →
      analyze_thread p th model u t tp fp pp = Except.error e →
      (mainRun p content model u t tp fp pp).analyses.length = pre.length ∧
      (mainRun p content model u t tp fp pp).runException = some e) := by
  have hrun := mainRun_eq_some p content model u t tp fp pp ths hseg
  constructor
  · intro hall
    obtain ⟨hlen, hexc, hsome⟩ := runAnalyses_all_ok p model u t tp fp pp ths 1 hall
    rw [hrun]
    exact ⟨hlen, hexc, hsome⟩
  · intro pre th post e hsplit hpre hfail
    obtain ⟨hlen, hexc⟩ := runAnalyses_abort p model u t tp fp pp pre 1 th post e hpre hfail
    rw [hrun, hsplit]
    exact ⟨hlen, hexc⟩

/-- Witness for C1: with a backend whose every call succeeds, a run
segmenting into two threads returns exactly two analysis entries and no
exception. -/
theorem C1_witness :
    (mainRun (okProvider "A\nB" "G") "doc" "OpenAI" "u" 1 1 0 0).analyses.length = 2 ∧
    (mainRun (okProvider "A\nB" "G") "doc" "OpenAI" "u" 1 1 0 0).runException = none :=
  have h := (C1_analysis_failure_aborts_run (okProvider "A\nB" "G") "doc" "OpenAI" "u"
      1 1 0 0 ["A", "B"] rfl).1 (fun _ _ => ⟨"G", rfl⟩)
  ⟨h.1, h.2.1⟩

/-- C2: a run whose segmentation provider call raises returns zero
analysis entries together with a run-level error banner, and this
outcome is distinguishable from a successful segmentation: the thread
list is the empty list exactly when the error banner is present (a
successful split never yields an empty list). -/
theorem C2_segfail_zero_results_with_error (p : Provider) (content model u : String)
    (t tp fp pp : Param) :
    ((mainRun p content model u t tp fp pp).threads = some [] ↔
      (mainRun p content model u t tp fp pp).segError.isSome = true) ∧
    ((mainRun p content model u t tp fp pp).threads = some [] →
      (mainRun p content model u t tp fp pp).analyses = [] ∧
      (mainRun p content model u t tp fp pp).runException = none) := by
  constructor
  · rw [mainRun_threads_eq, mainRun_segError_eq]
    by_cases h1 : model = "OpenAI"
    · subst h1
      rw [separate_threads_openai]
      cases ho : p.openaiChat (chat_messages (separation_prompt u (truncated content)))
          1500 t tp fp pp with
      | ok text => simp [sepPost, pySplitLines_ne_nil text]
      | error e => simp [sepPost]
    · by_cases h2 : model = "Claude"
      · subst h2
        rw [separate_threads_claude]
        cases ho : p.anthropicComplete (claude_wrapped (separation_prompt u (truncated content)))
            "claude-2" 1500 t tp with
        | ok text => simp [sepPost, pySplitLines_ne_nil text]
        | error e => simp [sepPost]
      · by_cases h3 : model = "LLaMA"
        · subst h3
          rw [separate_threads_llama]
          cases ho : p.replicateRun llama_model_id
              ⟨separation_prompt u (truncated content), t, tp, 1500, 1⟩ with
          | ok chunks => simp [sepPost, Except.map, pySplitLines_ne_nil (String.join chunks)]
          | error e => simp [sepPost, Except.map]
        · rw [separate_threads_unknown p content model u t tp fp pp h1 h2 h3]
          simp
  · intro h
    have hsep : (separate_threads p content model u t tp fp pp).threads = some [] := by
      rw [← mainRun_threads_eq]; exact h
    rw [mainRun_eq_some p content model u t tp fp pp [] hsep]
    exact ⟨rfl, rfl⟩

/-- Witness for C2: a backend that raises on the segmentation call
yields a run with the error banner set, no analysis entries, and no
uncaught exception. -/
theorem C2_witness :
    (mainRun (errProvider "net down") "doc" "OpenAI" "u" 1 1 0 0).segError.isSome = true ∧
    (mainRun (errProvider "net down") "doc" "OpenAI" "u" 1 1 0 0).analyses = [] :=
  ⟨(C2_segfail_zero_results_with_error (errProvider "net down") "doc" "OpenAI" "u"
      1 1 0 0).1.mp rfl,
    ((C2_segfail_zero_results_with_error (errProvider "net down") "doc" "OpenAI" "u"
      1 1 0 0).2 rfl).1⟩

/-- C3, counterexample: naming the unknown provider identity "Unknown"
raises nothing at all at call time — segmentation returns Python None
with no error banner, analysis returns None — so no ConfigurationError
is raised before a network call; the run only fails later with a
runtime TypeError when the orchestrator takes len(None). -/
theorem C3_counterexample :
    separate_threads (errProvider "net down") "doc" "Unknown" "u" 1 1 0 0
      = ⟨none, false, none⟩ ∧
    analyze_thread (errProvider "net down") "t" "Unknown" "u" 1 1 0 0 = Except.ok none ∧
    (mainRun (errProvider "net down") "doc" "Unknown" "u" 1 1 0 0).runException
      = some "TypeError: object of type NoneType has no len" :=
  ⟨rfl, rfl, rfl⟩

/-- C3 (amended): for every request naming a provider identity outside
the known set, no error is raised at call time and no network call is
attempted (the outcome is independent of the backends): segmentation
returns None with no error banner, analysis returns None, and the
unknown identity only surfaces later as a runtime TypeError in the
orchestrator, not as a configuration error. -/
theorem C3_unknown_identity_silent (p q : Provider) (content model u th : String)
    (t tp fp pp : Param)
    (h1 : model ≠ "OpenAI") (h2 : model ≠ "Claude") (h3 : model ≠ "LLaMA") :
    separate_threads p content model u t tp fp pp = ⟨none, truncWarned content, none⟩ ∧
    separate_threads p content model u t tp fp pp
      = separate_threads q content model u t tp fp pp ∧
    analyze_thread p th model u t tp fp pp = Except.ok none ∧
    analyze_thread p th model u t tp fp pp = analyze_thread q th model u t tp fp pp ∧
    (mainRun p content model u t tp fp pp).runException
      = some "TypeError: object of type NoneType has no len" := by
  have hp := separate_threads_unknown p content model u t tp fp pp h1 h2 h3
  have hq := separate_threads_unknown q content model u t tp fp pp h1 h2 h3
  have hsep : (separate_threads p content model u t tp fp pp).threads = none := by
    rw [hp]
  refine ⟨hp, by rw [hp, hq], analyze_thread_unknown p th model u t tp fp pp h1 h2 h3, ?_, ?_⟩
  · rw [analyze_thread_unknown p th model u t tp fp pp h1 h2 h3,
      analyze_thread_unknown q th model u t tp fp pp h1 h2 h3]
  · rw [mainRun_eq_none p content model u t tp fp pp hsep]

/-- Witness for C3 (amended): the identity "Unknown" with two different
backends. -/
theorem C3_witness :
    separate_threads (errProvider "net down") "doc" "Unknown" "u" 1 1 0 0
        = ⟨none, truncWarned "doc", none⟩ ∧
      separate_threads (errProvider "net down") "doc" "Unknown" "u" 1 1 0 0
        = separate_threads (okProvider "A" "G") "doc" "Unknown" "u" 1 1 0 0 ∧
      analyze_thread (errProvider "net down") "t" "Unknown" "u" 1 1 0 0 = Except.ok none ∧
      analyze_thread (errProvider "net down") "t" "Unknown" "u" 1 1 0 0
        = analyze_thread (okProvider "A" "G") "t" "Unknown" "u" 1 1 0 0 ∧
      (mainRun (errProvider "net down") "doc" "Unknown" "u" 1 1 0 0).runException
        = some "TypeError: object of type NoneType has no len" :=
  C3_unknown_identity_silent (errProvider "net down") (okProvider "A" "G") "doc" "Unknown"
    "u" "t" 1 1 0 0 (by decide) (by decide) (by decide)

/-- C4: segmentation and analysis calls routed to Claude or LLaMA
accept the full sampling configuration, and their result does not
depend on the frequencyPenalty and presencePenalty values (two-run
noninterference over the penalty fields); in particular supplying
penalties never causes an error that absence would not. -/
theorem C4_penalty_noninterference (p : Provider) (content th model u : String)
    (t tp fp pp fp2 pp2 : Param) (hm : model = "Claude" ∨ model = "LLaMA") :
    separate_threads p content model u t tp fp pp
      = separate_threads p content model u t tp fp2 pp2 ∧
    analyze_thread p th model u t tp fp pp
      = analyze_thread p th model u t tp fp2 pp2 := by
  rcases hm with h | h
  · subst h
    rw [separate_threads_claude p content u t tp fp pp,
      separate_threads_claude p content u t tp fp2 pp2,
      analyze_thread_claude p th u t tp fp pp,
      analyze_thread_claude p th u t tp fp2 pp2]
    exact ⟨rfl, rfl⟩
  · subst h
    rw [separate_threads_llama p content u t tp fp pp,
      separate_threads_llama p content u t tp fp2 pp2,
      analyze_thread_llama p th u t tp fp pp,
      analyze_thread_llama p th u t tp fp2 pp2]
    exact ⟨rfl, rfl⟩

/-- Witness for C4: a Claude run with penalties (0,0) equals the same
run with penalties (2,2). -/
theorem C4_witness :
    separate_threads (okProvider "A" "G") "doc" "Claude" "u" 1 1 0 0
        = separate_threads (okProvider "A" "G") "doc" "Claude" "u" 1 1 2 2 ∧
      analyze_thread (okProvider "A" "G") "t" "Claude" "u" 1 1 0 0
        = analyze_thread (okProvider "A" "G") "t" "Claude" "u" 1 1 2 2 :=
  C4_penalty_noninterference (okProvider "A" "G") "doc" "t" "Claude" "u"
    1 1 0 0 2 2 (Or.inl rfl)

/-- C5: truncation returns the document unchanged (no warning) when its
length is at most the limit, and otherwise returns exactly the first
limit characters (output length equal to the limit) with the truncation
flag set. -/
theorem C5_truncation_contract (doc : String) (limit : Nat) :
    (doc.length ≤ limit → truncateContent doc limit = (doc, false)) ∧
    (limit < doc.length →
      (truncateContent doc limit).1.length = limit ∧
      (truncateContent doc limit).2 = true ∧
      (truncateContent doc limit).1.data = doc.data.take limit) := by
  constructor
  · intro h
    unfold truncateContent
    rw [if_neg (not_lt.mpr h)]
  · intro h
    have hd : limit < doc.data.length := h
    unfold truncateContent
    rw [if_pos h]
    refine ⟨?_, rfl, rfl⟩
    rw [String.length_mk, List.length_take]
    omega

/-- Witness for C5 (the spec scenario): a 20,000-character document
truncated at the 16,000-character limit used by the code yields a
16,000-character document with the truncation flag set. -/
theorem C5_witness :
    max_tokens * 4 < (String.mk (List.replicate 20000 (Char.ofNat 97))).length ∧
    (truncateContent (String.mk (List.replicate 20000 (Char.ofNat 97)))
      (max_tokens * 4)).1.length = 16000 ∧
    (truncateContent (String.mk (List.replicate 20000 (Char.ofNat 97)))
      (max_tokens * 4)).2 = true :=
  have hlen : max_tokens * 4 < (String.mk (List.replicate 20000 (Char.ofNat 97))).length := by
    rw [String.length_mk, List.length_replicate]
    norm_num [max_tokens]
  have h := (C5_truncation_contract (String.mk (List.replicate 20000 (Char.ofNat 97)))
    (max_tokens * 4)).2 hlen
  ⟨hlen, h.1, h.2.1⟩

/-- C6: truncation is idempotent — truncating an already-truncated
document with the same limit returns it unchanged with the flag
unset. -/
theorem C6_truncation_idempotent (doc : String) (limit : Nat) :
    truncateContent (truncateContent doc limit).1 limit
      = ((truncateContent doc limit).1, false) := by
  by_cases h : doc.length > limit
  · have h1 : truncateContent doc limit = (String.mk (doc.data.take limit), true) := by
      unfold truncateContent
      rw [if_pos h]
    rw [h1]
    have hle : (String.mk (doc.data.take limit)).length ≤ limit := by
      rw [String.length_mk, List.length_take]
      omega
    unfold truncateContent
    rw [if_neg (not_lt.mpr hle)]
  · have h1 : truncateContent doc limit = (doc, false) := by
      unfold truncateContent
      rw [if_neg h]
    rw [h1]
    unfold truncateContent
    rw [if_neg h]

/-- C7: for every successful segmentation call (on each of the three
providers), the thread sequence is exactly the provider's returned text
split on line boundaries, in order, with nothing discarded — blank
entries are kept, as the concrete split of a text with an empty middle
line shows. -/
theorem C7_segmentation_line_split (p : Provider) (content model u text : String)
    (chunks : List String) (t tp fp pp : Param) :
    (model = "OpenAI" →
      p.openaiChat (chat_messages (separation_prompt u (truncated content))) 1500 t tp fp pp
        = Except.ok text →
      (separate_threads p content model u t tp fp pp).threads = some (pySplitLines text)) ∧
    (model = "Claude" →
      p.anthropicComplete (claude_wrapped (separation_prompt u (truncated content)))
          "claude-2" 1500 t tp = Except.ok text →
      (separate_threads p content model u t tp fp pp).threads = some (pySplitLines text)) ∧
    (model = "LLaMA" →
      p.replicateRun llama_model_id ⟨separation_prompt u (truncated content), t, tp, 1500, 1⟩
        = Except.ok chunks →
      (separate_threads p content model u t tp fp pp).threads
        = some (pySplitLines (String.join chunks))) ∧
    pySplitLines "a\n\nb" = ["a", "", "b"] := by
  refine ⟨?_, ?_, ?_, by decide⟩
  · intro hm ho
    subst hm
    rw [separate_threads_openai, ho]
    rfl
  · intro hm ho
    subst hm
    rw [separate_threads_claude, ho]
    rfl
  · intro hm ho
    subst hm
    rw [separate_threads_llama, ho]
    rfl

/-- Witness for C7: a successful OpenAI segmentation returning two
lines yields exactly their split. -/
theorem C7_witness :
    (separate_threads (okProvider "A\nB" "G") "doc" "OpenAI" "u" 1 1 0 0).threads
      = some (pySplitLines "A\nB") :=
  (C7_segmentation_line_split (okProvider "A\nB" "G") "doc" "OpenAI" "u" "A\nB" []
    1 1 0 0).1 rfl rfl

/-- C8: if the segmentation provider returns text consisting of exactly
three non-empty lines, the run produces exactly three thread entries
which `enumerate(threads, 1)` pairs with the 1-based indices 1, 2, 3 in
that order. -/
theorem C8_three_lines_indices (p : Provider) (content u : String) (t tp fp pp : Param)
    (l1 l2 l3 : List Char)
    (ho : p.openaiChat (chat_messages (separation_prompt u (truncated content))) 1500 t tp fp pp
      = Except.ok (String.mk (l1 ++ Char.ofNat 10 :: (l2 ++ Char.ofNat 10 :: l3))))
    (h1 : Char.ofNat 10 ∉ l1) (h2 : Char.ofNat 10 ∉ l2) (h3 : Char.ofNat 10 ∉ l3)
    (_hn1 : l1 ≠ []) (_hn2 : l2 ≠ []) (_hn3 : l3 ≠ []) :
    (separate_threads p content "OpenAI" u t tp fp pp).threads
      = some [String.mk l1, String.mk l2, String.mk l3] ∧
    enumerateFrom 1 [String.mk l1, String.mk l2, String.mk l3]
      = [(1, String.mk l1), (2, String.mk l2), (3, String.mk l3)] := by
  constructor
  · rw [separate_threads_openai, ho]
    show some (pySplitLines (String.mk (l1 ++ Char.ofNat 10 :: (l2 ++ Char.ofNat 10 :: l3)))) = _
    unfold pySplitLines
    rw [show (String.mk (l1 ++ Char.ofNat 10 :: (l2 ++ Char.ofNat 10 :: l3))).data
        = l1 ++ Char.ofNat 10 :: (l2 ++ Char.ofNat 10 :: l3) from rfl]
    rw [splitOnChar_sep _ _ _ h1, splitOnChar_sep _ _ _ h2, splitOnChar_of_not_mem _ _ h3]
    rfl
  · rfl

/-- Witness for C8: the provider text "one\ntwo\nthree" yields the
three threads indexed 1, 2, 3. -/
theorem C8_witness :
    (separate_threads (okProvider "one\ntwo\nthree" "G") "doc" "OpenAI" "u" 1 1 0 0).threads
      = some ["one", "two", "three"] ∧
    enumerateFrom 1 ["one", "two", "three"] = [(1, "one"), (2, "two"), (3, "three")] :=
  C8_three_lines_indices (okProvider "one\ntwo\nthree" "G") "doc" "u" 1 1 0 0
    "one".data "two".data "three".data rfl (by decide) (by decide)
    (by decide) (by decide) (by decide) (by decide)

/-- C9: every successful analysis call returns the provider's generated
text unmodified (only wrapped as the function's return value) — no
parsing, filtering, or validation of the five semantic fields happens
before returning. -/
theorem C9_analysis_returns_raw (p : Provider) (th model u g : String)
    (chunks : List String) (t tp fp pp : Param) :
    (model = "OpenAI" →
      p.openaiChat (chat_messages (analysis_prompt u th)) 1000 t tp fp pp = Except.ok g →
      analyze_thread p th model u t tp fp pp = Except.ok (some g)) ∧
    (model = "Claude" →
      p.anthropicComplete (claude_wrapped (analysis_prompt u th)) "claude-2" 1000 t tp
        = Except.ok g →
      analyze_thread p th model u t tp fp pp = Except.ok (some g)) ∧
    (model = "LLaMA" →
      p.replicateRun llama_model_id ⟨analysis_prompt u th, t, tp, 1000, 1⟩ = Except.ok chunks →
      analyze_thread p th model u t tp fp pp = Except.ok (some (String.join chunks))) := by
  refine ⟨?_, ?_, ?_⟩
  · intro hm ho
    subst hm
    rw [analyze_thread_openai, ho]
    rfl
  · intro hm ho
    subst hm
    rw [analyze_thread_claude, ho]
    rfl
  · intro hm ho
    subst hm
    rw [analyze_thread_llama, ho]
    rfl

/-- Witness for C9: a successful OpenAI analysis call returning "G"
yields exactly "G". -/
theorem C9_witness :
    analyze_thread (okProvider "S" "G") "t" "OpenAI" "u" 1 1 0 0 = Except.ok (some "G") :=
  (C9_analysis_returns_raw (okProvider "S" "G") "t" "OpenAI" "u" "G" [] 1 1 0 0).1 rfl rfl

/-- C10: for every known provider, a segmentation that does not show
the error banner returns a thread sequence with at least one entry
(splitting any string on line boundaries yields at least one element),
so an empty thread sequence can only arise from the failure path. -/
theorem C10_success_nonempty (p : Provider) (content model u : String) (t tp fp pp : Param)
    (hm : model = "OpenAI" ∨ model = "Claude" ∨ model = "LLaMA") :
    ((separate_threads p content model u t tp fp pp).errorMsg = none →
      ∃ ts, (separate_threads p content model u t tp fp pp).threads = some ts ∧
        0 < ts.length) ∧
    ((separate_threads p content model u t tp fp pp).threads = some [] →
      (separate_threads p content model u t tp fp pp).errorMsg.isSome = true) := by
  rcases hm with h | h | h
  · subst h
    rw [separate_threads_openai]
    cases ho : p.openaiChat (chat_messages (separation_prompt u (truncated content)))
        1500 t tp fp pp with
    | ok text =>
      refine ⟨fun _ => ⟨pySplitLines text, rfl,
        List.length_pos.mpr (pySplitLines_ne_nil text)⟩, fun habs => ?_⟩
      simp only [sepPost, Option.some.injEq] at habs
      exact absurd habs (pySplitLines_ne_nil text)
    | error e =>
      refine ⟨fun habs => ?_, fun _ => rfl⟩
      simp [sepPost] at habs
  · subst h
    rw [separate_threads_claude]
    cases ho : p.anthropicComplete (claude_wrapped (separation_prompt u (truncated content)))
        "claude-2" 1500 t tp with
    | ok text =>
      refine ⟨fun _ => ⟨pySplitLines text, rfl,
        List.length_pos.mpr (pySplitLines_ne_nil text)⟩, fun habs => ?_⟩
      simp only [sepPost, Option.some.injEq] at habs
      exact absurd habs (pySplitLines_ne_nil text)
    | error e =>
      refine ⟨fun habs => ?_, fun _ => rfl⟩
      simp [sepPost] at habs
  · subst h
    rw [separate_threads_llama]
    cases ho : p.replicateRun llama_model_id
        ⟨separation_prompt u (truncated content), t, tp, 1500, 1⟩ with
    | ok chunks =>
      refine ⟨fun _ => ⟨pySplitLines (String.join chunks), rfl,
        List.length_pos.mpr (pySplitLines_ne_nil (String.join chunks))⟩, fun habs => ?_⟩
      simp only [Except.map, sepPost, Option.some.injEq] at habs
      exact absurd habs (pySplitLines_ne_nil (String.join chunks))
    | error e =>
      refine ⟨fun habs => ?_, fun _ => rfl⟩
      simp [Except.map, sepPost] at habs

/-- Witness for C10: a successful OpenAI segmentation has a nonempty
thread list. -/
theorem C10_witness :
    ∃ ts, (separate_threads (okProvider "A" "G") "doc" "OpenAI" "u" 1 1 0 0).threads
      = some ts ∧ 0 < ts.length :=
  (C10_success_nonempty (okProvider "A" "G") "doc" "OpenAI" "u" 1 1 0 0 (Or.inl rfl)).1 rfl
